import Mathlib

/-!
# The gauge subsystem of circonus-gometrics (`gauge.go`)

A shallow embedding of the gauge store, the gauge-function registry and the
resmon type classifier, followed by the properties proved about them.

Modelling conventions

* A Go `interface{}` value is a `Value`: its dynamic type (`Value.kind`) together
  with its payload.  Signed integers carry an `Int`, unsigned integers a `Nat`,
  floats their IEEE-754 bit pattern.
* Go integer addition wraps at the width of the type; `wrapSigned` and
  `wrapUnsigned` are that reduction.  The width of `int` and `uint` and the two
  float additions belong to the target platform (`Platform`).
* A Go `map[string]T` is a `GoMap T`: a lookup function.  The maps of a
  `CirconusMetrics` are the ones its constructor allocated (never the nil map).
* The methods run under `m.gm` / `m.gfm`; a single call is modelled as one
  atomic step on the state.  A failed type assertion is a run-time panic: the
  deferred `Unlock` runs and the call ends in `Outcome.panicked`, carrying the
  state the panic left behind.
-/

namespace Circonus

/-! ## Dynamic values -/

/-- The dynamic type of an `interface{}` value. -/
inductive Kind where
  | int | int8 | int16 | int32 | int64
  | uint | uint8 | uint16 | uint32 | uint64
  | float32 | float64
  | string | bool | nil
  | other (typeName : String)
  deriving DecidableEq, Repr

/-- An `interface{}` value: dynamic type and payload.  `other` stands for a value of
any further Go type (a struct, a slice, a named numeric type, ...). -/
inductive Value where
  | int (n : Int) | int8 (n : Int) | int16 (n : Int) | int32 (n : Int) | int64 (n : Int)
  | uint (n : Nat) | uint8 (n : Nat) | uint16 (n : Nat) | uint32 (n : Nat) | uint64 (n : Nat)
  | float32 (bits : Nat) | float64 (bits : Nat)
  | string (s : String) | bool (b : Bool) | nil
  | other (typeName : String) (repr : String)
  deriving DecidableEq, Repr

/-- The dynamic type of a value. -/
def Value.kind : Value → Kind
  | .int _ => .int | .int8 _ => .int8 | .int16 _ => .int16 | .int32 _ => .int32
  | .int64 _ => .int64
  | .uint _ => .uint | .uint8 _ => .uint8 | .uint16 _ => .uint16 | .uint32 _ => .uint32
  | .uint64 _ => .uint64
  | .float32 _ => .float32 | .float64 _ => .float64
  | .string _ => .string | .bool _ => .bool | .nil => .nil
  | .other t _ => .other t

/-- Two's-complement reduction of `x` to a signed integer of `w` bits. -/
def wrapSigned (w : Nat) (x : Int) : Int :=
  (x + 2 ^ (w - 1)) % 2 ^ w - 2 ^ (w - 1)

/-- Reduction of `x` to an unsigned integer of `w` bits. -/
def wrapUnsigned (w : Nat) (x : Nat) : Nat :=
  x % 2 ^ w

/-! ## IEEE-754 addition on bit patterns

`ieeeAdd E M` adds two binary floating-point numbers with `E` exponent bits and `M`
fraction bits, rounding to nearest, ties to even.  Every finite number of the format
is an integer multiple of the smallest subnormal, so the sum is formed exactly in
those units and rounded once. -/

/-- Sign bit of a bit pattern. -/
def ieeeSign (E M x : Nat) : Bool := x / 2 ^ (E + M) % 2 = 1

/-- Biased exponent field. -/
def ieeeExp (E M x : Nat) : Nat := x / 2 ^ M % 2 ^ E

/-- Fraction field. -/
def ieeeFrac (M x : Nat) : Nat := x % 2 ^ M

/-- The pattern is a NaN. -/
def ieeeIsNaN (E M x : Nat) : Bool := ieeeExp E M x = 2 ^ E - 1 ∧ ieeeFrac M x ≠ 0

/-- The pattern is an infinity. -/
def ieeeIsInf (E M x : Nat) : Bool := ieeeExp E M x = 2 ^ E - 1 ∧ ieeeFrac M x = 0

/-- Magnitude of a finite pattern in units of the smallest subnormal. -/
def ieeeMagnitude (E M x : Nat) : Nat :=
  if ieeeExp E M x = 0 then ieeeFrac M x
  else (2 ^ M + ieeeFrac M x) * 2 ^ (ieeeExp E M x - 1)

/-- Signed value of a finite pattern in units of the smallest subnormal. -/
def ieeeUnits (E M x : Nat) : Int :=
  if ieeeSign E M x then - (ieeeMagnitude E M x : Int) else (ieeeMagnitude E M x : Int)

/-- Rounds a magnitude given in units of the smallest subnormal to the format (nearest,
ties to even) and returns exponent and fraction fields, without the sign bit. -/
def ieeeRound (E M n : Nat) : Nat :=
  let shift := Nat.log2 n - M
  let q := n / 2 ^ shift
  let r := n % 2 ^ shift
  let up : Bool := 2 * r > 2 ^ shift ∨ (2 * r = 2 ^ shift ∧ q % 2 = 1)
  let bits := shift * 2 ^ M + q + (if up then 1 else 0)
  if bits / 2 ^ M ≥ 2 ^ E - 1 then (2 ^ E - 1) * 2 ^ M else bits

/-- Sets the quiet bit of a NaN pattern. -/
def ieeeQuiet (M x : Nat) : Nat :=
  if x / 2 ^ (M - 1) % 2 = 1 then x else x + 2 ^ (M - 1)

/-- Sum of two bit patterns.  NaNs follow the SSE rule: a NaN operand is returned
quieted (the first one when both are NaN), and the sum of opposite infinities is the
default NaN with the sign bit set. -/
def ieeeAdd (E M a b : Nat) : Nat :=
  if ieeeIsNaN E M a then ieeeQuiet M a
  else if ieeeIsNaN E M b then ieeeQuiet M b
  else if ieeeIsInf E M a then
    if ieeeIsInf E M b ∧ ieeeSign E M a ≠ ieeeSign E M b then
      2 ^ (E + M) + (2 ^ E - 1) * 2 ^ M + 2 ^ (M - 1)
    else a
  else if ieeeIsInf E M b then b
  else
    let t := ieeeUnits E M a + ieeeUnits E M b
    if t = 0 then
      if ieeeSign E M a ∧ ieeeSign E M b then 2 ^ (E + M) else 0
    else if t < 0 then 2 ^ (E + M) + ieeeRound E M t.natAbs
    else ieeeRound E M t.natAbs

/-! ## Platform -/

/-- What the compilation target fixes: the width of `int` and `uint` (32 or 64 bits)
and the hardware addition of `float32` and `float64`, on bit patterns. -/
structure Platform where
  intBits : Nat
  intBits_ok : intBits = 32 ∨ intBits = 64
  addFloat32 : Nat → Nat → Nat
  addFloat64 : Nat → Nat → Nat

/-- The 64-bit x86 target: 64-bit `int`, SSE scalar addition. -/
def amd64 : Platform where
  intBits := 64
  intBits_ok := Or.inr rfl
  addFloat32 := ieeeAdd 8 23
  addFloat64 := ieeeAdd 11 52

/-- The 32-bit x86 target: as `amd64` with a 32-bit `int`. -/
def i386 : Platform where
  intBits := 32
  intBits_ok := Or.inl rfl
  addFloat32 := ieeeAdd 8 23
  addFloat64 := ieeeAdd 11 52

/-! ## Maps and state -/

/-- A Go `map[string]β`, seen through its lookup. -/
def GoMap (β : Type) : Type := String → Option β

namespace GoMap

/-- The map `make(map[string]β)` returns. -/
def empty {β : Type} : GoMap β := fun _ => none

/-- The comma-ok read `v, ok := g[k]`. -/
def lookup {β : Type} (g : GoMap β) (k : String) : Option β := g k

/-- The assignment `g[k] = v`. -/
def assign {β : Type} (g : GoMap β) (k : String) (v : β) : GoMap β :=
  fun j => if j = k then some v else g j

/-- The builtin `delete(g, k)`. -/
def delete {β : Type} (g : GoMap β) (k : String) : GoMap β :=
  fun j => if j = k then none else g j

end GoMap

/-- A gauge function `func() int64`. -/
def GaugeFunc : Type := Unit → Int

/-- The fields of `CirconusMetrics` that `gauge.go` uses. -/
structure CirconusMetrics where
  gauges : GoMap Value
  gaugeFuncs : GoMap GaugeFunc

/-- The run-time panic of a failed type assertion `v.(T)`: the dynamic type found
and the type asserted. -/
structure Panic where
  dynamic : Kind
  asserted : Kind
  deriving DecidableEq, Repr

/-- How a call ends: it returns, or it panics; in both cases with the state it left. -/
inductive Outcome where
  | returned (m : CirconusMetrics)
  | panicked (m : CirconusMetrics) (e : Panic)

/-- The state a call left behind. -/
def Outcome.state : Outcome → CirconusMetrics
  | .returned m => m
  | .panicked m _ => m

/-- The panic a call ended with, if any. -/
def Outcome.panic : Outcome → Option Panic
  | .returned _ => none
  | .panicked _ e => some e

/-! ## The gauge store -/

/-- Source `SetGauge` (gauge.go:32): sets a gauge to a value. -/
def SetGauge (m : CirconusMetrics) (metric : String) (val : Value) : CirconusMetrics :=
  { m with gauges := m.gauges.assign metric val }

/-- Source `Gauge` (gauge.go:22): sets a gauge to a value, through `SetGauge`. -/
def Gauge (m : CirconusMetrics) (metric : String) (val : Value) : CirconusMetrics :=
  SetGauge m metric val

/-- Source `AddGauge` (gauge.go:44): adds value to existing gauge.  The type switch is
on the incoming value; the stored value is then asserted to have the same type, and
the assertion is evaluated before the map is written. -/
def AddGauge (p : Platform) (m : CirconusMetrics) (metric : String) (val : Value) :
    Outcome :=
  match m.gauges.lookup metric with
  | none => .returned { m with gauges := m.gauges.assign metric val }
  | some v =>
    match val with
    | .int b =>
      match v with
      | .int a =>
        .returned { m with gauges := m.gauges.assign metric (.int (wrapSigned p.intBits (a + b))) }
      | _ => .panicked m ⟨v.kind, .int⟩
    | .int8 b =>
      match v with
      | .int8 a =>
        .returned { m with gauges := m.gauges.assign metric (.int8 (wrapSigned 8 (a + b))) }
      | _ => .panicked m ⟨v.kind, .int8⟩
    | .int16 b =>
      match v with
      | .int16 a =>
        .returned { m with gauges := m.gauges.assign metric (.int16 (wrapSigned 16 (a + b))) }
      | _ => .panicked m ⟨v.kind, .int16⟩
    | .int32 b =>
      match v with
      | .int32 a =>
        .returned { m with gauges := m.gauges.assign metric (.int32 (wrapSigned 32 (a + b))) }
      | _ => .panicked m ⟨v.kind, .int32⟩
    | .int64 b =>
      match v with
      | .int64 a =>
        .returned { m with gauges := m.gauges.assign metric (.int64 (wrapSigned 64 (a + b))) }
      | _ => .panicked m ⟨v.kind, .int64⟩
    | .uint b =>
      match v with
      | .uint a =>
        .returned { m with gauges := m.gauges.assign metric (.uint (wrapUnsigned p.intBits (a + b))) }
      | _ => .panicked m ⟨v.kind, .uint⟩
    | .uint8 b =>
      match v with
      | .uint8 a =>
        .returned { m with gauges := m.gauges.assign metric (.uint8 (wrapUnsigned 8 (a + b))) }
      | _ => .panicked m ⟨v.kind, .uint8⟩
    | .uint16 b =>
      match v with
      | .uint16 a =>
        .returned { m with gauges := m.gauges.assign metric (.uint16 (wrapUnsigned 16 (a + b))) }
      | _ => .panicked m ⟨v.kind, .uint16⟩
    | .uint32 b =>
      match v with
      | .uint32 a =>
        .returned { m with gauges := m.gauges.assign metric (.uint32 (wrapUnsigned 32 (a + b))) }
      | _ => .panicked m ⟨v.kind, .uint32⟩
    | .uint64 b =>
      match v with
      | .uint64 a =>
        .returned { m with gauges := m.gauges.assign metric (.uint64 (wrapUnsigned 64 (a + b))) }
      | _ => .panicked m ⟨v.kind, .uint64⟩
    | .float32 b =>
      match v with
      | .float32 a =>
        .returned { m with gauges := m.gauges.assign metric (.float32 (p.addFloat32 a b)) }
      | _ => .panicked m ⟨v.kind, .float32⟩
    | .float64 b =>
      match v with
      | .float64 a =>
        .returned { m with gauges := m.gauges.assign metric (.float64 (p.addFloat64 a b)) }
      | _ => .panicked m ⟨v.kind, .float64⟩
    | _ => .returned m

/-- Source `RemoveGauge` (gauge.go:90): removes a gauge. -/
def RemoveGauge (m : CirconusMetrics) (metric : String) : CirconusMetrics :=
  { m with gauges := m.gauges.delete metric }

/-- What `GetGaugeTest` hands back: the state it left, the value and the error
(`none` for a nil error, otherwise the message). -/
structure GetResult where
  state : CirconusMetrics
  val : Value
  err : Option String

/-- Source `GetGaugeTest` (gauge.go:97): returns the current value for a gauge. -/
def GetGaugeTest (m : CirconusMetrics) (metric : String) : GetResult :=
  match m.gauges.lookup metric with
  | some val => ⟨m, val, none⟩
  | none => ⟨m, .nil, some ("Gauge metric '" ++ metric ++ "' not found")⟩

/-! ## The gauge-function registry -/

/-- Source `SetGaugeFunc` (gauge.go:114): sets a gauge to a function. -/
def SetGaugeFunc (m : CirconusMetrics) (metric : String) (fn : GaugeFunc) :
    CirconusMetrics :=
  { m with gaugeFuncs := m.gaugeFuncs.assign metric fn }

/-- Source `RemoveGaugeFunc` (gauge.go:126): removes a gauge function. -/
def RemoveGaugeFunc (m : CirconusMetrics) (metric : String) : CirconusMetrics :=
  { m with gaugeFuncs := m.gaugeFuncs.delete metric }

/-! ## Operations on tagged metrics

`Tags` and `MetricNameWithStreamTags`, which composes a metric name and its tags into
one key, are declared outside `gauge.go`; the type and the function are parameters of
the tagged operations. -/

/-- Source `SetGaugeWithTags` (gauge.go:27): sets a gauge metric with tags to a value. -/
def SetGaugeWithTags {Tags : Type} (MetricNameWithStreamTags : String → Tags → String)
    (m : CirconusMetrics) (metric : String) (tags : Tags) (val : Value) :
    CirconusMetrics :=
  SetGauge m (MetricNameWithStreamTags metric tags) val

/-- Source `GaugeWithTags` (gauge.go:17): sets a gauge metric with tags to a value,
through `SetGaugeWithTags`. -/
def GaugeWithTags {Tags : Type} (MetricNameWithStreamTags : String → Tags → String)
    (m : CirconusMetrics) (metric : String) (tags : Tags) (val : Value) :
    CirconusMetrics :=
  SetGaugeWithTags MetricNameWithStreamTags m metric tags val

/-- Source `AddGaugeWithTags` (gauge.go:39): adds value to existing gauge metric with
tags. -/
def AddGaugeWithTags {Tags : Type} (MetricNameWithStreamTags : String → Tags → String)
    (p : Platform) (m : CirconusMetrics) (metric : String) (tags : Tags) (val : Value) :
    Outcome :=
  AddGauge p m (MetricNameWithStreamTags metric tags) val

/-- Source `RemoveGaugeWithTags` (gauge.go:85): removes a gauge metric with tags. -/
def RemoveGaugeWithTags {Tags : Type} (MetricNameWithStreamTags : String → Tags → String)
    (m : CirconusMetrics) (metric : String) (tags : Tags) : CirconusMetrics :=
  RemoveGauge m (MetricNameWithStreamTags metric tags)

/-- Source `SetGaugeFuncWithTags` (gauge.go:109): sets a gauge metric with tags to a
function. -/
def SetGaugeFuncWithTags {Tags : Type}
    (MetricNameWithStreamTags : String → Tags → String)
    (m : CirconusMetrics) (metric : String) (tags : Tags) (fn : GaugeFunc) :
    CirconusMetrics :=
  SetGaugeFunc m (MetricNameWithStreamTags metric tags) fn

/-- Source `RemoveGaugeFuncWithTags` (gauge.go:121): removes a gauge metric with tags
function. -/
def RemoveGaugeFuncWithTags {Tags : Type}
    (MetricNameWithStreamTags : String → Tags → String)
    (m : CirconusMetrics) (metric : String) (tags : Tags) : CirconusMetrics :=
  RemoveGaugeFunc m (MetricNameWithStreamTags metric tags)

/-! ## The resmon type classifier -/

/-- Source `getGaugeType` (gauge.go:133): returns the resmon type for the underlying
type of a gauge value; "n" unless a case of the type switch matches. -/
def getGaugeType (v : Value) : String :=
  match v with
  | .int _ => "i"
  | .int8 _ => "i"
  | .int16 _ => "i"
  | .int32 _ => "i"
  | .uint _ => "I"
  | .uint8 _ => "I"
  | .uint16 _ => "I"
  | .uint32 _ => "I"
  | .int64 _ => "l"
  | .uint64 _ => "L"
  | _ => "n"

/-! ## Derived notions used in the statements -/

/-- The freshly constructed client: both maps allocated and empty. -/
def CirconusMetrics.init : CirconusMetrics := ⟨GoMap.empty, GoMap.empty⟩

/-- The kinds `AddGauge` has a case for. -/
def Kind.supported : Kind → Bool
  | .int | .int8 | .int16 | .int32 | .int64 => true
  | .uint | .uint8 | .uint16 | .uint32 | .uint64 => true
  | .float32 | .float64 => true
  | _ => false

/-- Bit width of the integer kinds on a platform; `none` for every other kind. -/
def Kind.intBits (p : Platform) : Kind → Option Nat
  | .int | .uint => some p.intBits
  | .int8 | .uint8 => some 8
  | .int16 | .uint16 => some 16
  | .int32 | .uint32 => some 32
  | .int64 | .uint64 => some 64
  | _ => none

/-- The number an integer value stands for (0 for a value of any other kind). -/
def Value.toInt : Value → Int
  | .int n | .int8 n | .int16 n | .int32 n | .int64 n => n
  | .uint n | .uint8 n | .uint16 n | .uint32 n | .uint64 n => (n : Int)
  | _ => 0

/-- The payload is one the Go type can hold. -/
def Value.inRange (p : Platform) : Value → Prop
  | .int n => -2 ^ (p.intBits - 1) ≤ n ∧ n < 2 ^ (p.intBits - 1)
  | .int8 n => -2 ^ 7 ≤ n ∧ n < 2 ^ 7
  | .int16 n => -2 ^ 15 ≤ n ∧ n < 2 ^ 15
  | .int32 n => -2 ^ 31 ≤ n ∧ n < 2 ^ 31
  | .int64 n => -2 ^ 63 ≤ n ∧ n < 2 ^ 63
  | .uint n => n < 2 ^ p.intBits
  | .uint8 n => n < 2 ^ 8
  | .uint16 n => n < 2 ^ 16
  | .uint32 n => n < 2 ^ 32
  | .uint64 n => n < 2 ^ 64
  | .float32 b => b < 2 ^ 32
  | .float64 b => b < 2 ^ 64
  | _ => True

/-- Runs a second call after a first one; a panic ends the sequence. -/
def Outcome.andThen (o : Outcome) (f : CirconusMetrics → Outcome) : Outcome :=
  match o with
  | .returned m => f m
  | .panicked m e => .panicked m e

/-- Runs a call `n` times in a row; a panic ends the sequence. -/
def Outcome.iterate (f : CirconusMetrics → Outcome) : Nat → CirconusMetrics → Outcome
  | 0, m => .returned m
  | n + 1, m => (f m).andThen (Outcome.iterate f n)

/-- The supported numeric kinds of the data model: signed integers of 8, 16, 32 and 64
bits and of machine width, unsigned integers of the same widths, and floating point
of 32 and 64 bits. -/
def numericKinds : List Kind :=
  [.int8, .int16, .int32, .int64, .int,
   .uint8, .uint16, .uint32, .uint64, .uint,
   .float32, .float64]

/-- The Go expression `a + b` on two operands of one type: the wrapped sum of two
integers, the platform's sum of two floats, the concatenation of two strings; `none`
for operands of different types and for the types of the model that have no `+`.  The
payload of an `other` value is not interpreted, so it has no sum here. -/
def nativeSum (p : Platform) : Value → Value → Option Value
  | .int a, .int b => some (.int (wrapSigned p.intBits (a + b)))
  | .int8 a, .int8 b => some (.int8 (wrapSigned 8 (a + b)))
  | .int16 a, .int16 b => some (.int16 (wrapSigned 16 (a + b)))
  | .int32 a, .int32 b => some (.int32 (wrapSigned 32 (a + b)))
  | .int64 a, .int64 b => some (.int64 (wrapSigned 64 (a + b)))
  | .uint a, .uint b => some (.uint (wrapUnsigned p.intBits (a + b)))
  | .uint8 a, .uint8 b => some (.uint8 (wrapUnsigned 8 (a + b)))
  | .uint16 a, .uint16 b => some (.uint16 (wrapUnsigned 16 (a + b)))
  | .uint32 a, .uint32 b => some (.uint32 (wrapUnsigned 32 (a + b)))
  | .uint64 a, .uint64 b => some (.uint64 (wrapUnsigned 64 (a + b)))
  | .float32 a, .float32 b => some (.float32 (p.addFloat32 a b))
  | .float64 a, .float64 b => some (.float64 (p.addFloat64 a b))
  | .string a, .string b => some (.string (a ++ b))
  | _, _ => none

/-- The kind `K` is one `AddGauge` combines: whenever the key holds a value of kind `K`
and a value of kind `K` comes in, the call returns and has replaced the stored value by
the sum of the two. -/
def combines (p : Platform) (K : Kind) : Prop :=
  ∀ (m : CirconusMetrics) (key : String) (a b : Value),
    a.kind = K → b.kind = K → m.gauges.lookup key = some a →
    ∃ r : Value, nativeSum p a b = some r ∧
      AddGauge p m key b = .returned (SetGauge m key r)

/-! ## Basic facts about maps -/

theorem GoMap.lookup_assign_same {β : Type} (g : GoMap β) (k : String) (v : β) :
    (g.assign k v).lookup k = some v := by
  simp [GoMap.lookup, GoMap.assign]

theorem GoMap.lookup_assign_other {β : Type} (g : GoMap β) (k j : String) (v : β)
    (h : j ≠ k) : (g.assign k v).lookup j = g.lookup j := by
  simp [GoMap.lookup, GoMap.assign, h]

theorem GoMap.lookup_delete_same {β : Type} (g : GoMap β) (k : String) :
    (g.delete k).lookup k = none := by
  simp [GoMap.lookup, GoMap.delete]

theorem GoMap.assign_assign {β : Type} (g : GoMap β) (k : String) (v w : β) :
    (g.assign k v).assign k w = g.assign k w := by
  funext j
  by_cases h : j = k <;> simp [GoMap.assign, h]

theorem GoMap.delete_absent {β : Type} (g : GoMap β) (k : String)
    (h : g.lookup k = none) : g.delete k = g := by
  funext j
  by_cases hj : j = k
  · subst hj
    simpa [GoMap.delete, GoMap.lookup] using h.symm
  · simp [GoMap.delete, hj]

/-! ## Properties of the store and of the classifier -/

/-- C1 (the code at the failing input): with an `int64` stored under the key, `AddGauge`
of a `float64` does not return; the assertion `v.(float64)` fails and the call panics
with "interface {} is int64, not float64". -/
theorem AddGauge_int64_then_float64_panics :
    (AddGauge amd64 (SetGauge CirconusMetrics.init "free" (.int64 1)) "free"
        (.float64 0x3FF0000000000000)).panic
      = some ⟨Kind.int64, Kind.float64⟩ := by
  decide

/-- C2 (as stated, refuted): the `int` value 7 is not tagged "n"; it is tagged "i". -/
theorem getGaugeType_int_seven :
    getGaugeType (.int 7) = "i" ∧ getGaugeType (.int 7) ≠ "n" := by
  decide

/-- C2 (amended): every machine-width signed integer (`int`) is tagged "i", like the
8/16/32-bit signed kinds, and every machine-width unsigned integer (`uint`) is tagged
"I". -/
theorem getGaugeType_machine_width (n : Int) (u : Nat) :
    getGaugeType (.int n) = "i" ∧ getGaugeType (.uint u) = "I" :=
  ⟨rfl, rfl⟩

/-- C3: the tag of a value depends only on its kind, and on the fixed-width kinds it is
the table: `int8`, `int16`, `int32` give "i"; `int64` gives "l"; `uint8`, `uint16`,
`uint32` and `uint` give "I"; `uint64` gives "L". -/
theorem getGaugeType_fixed_width_table (v w : Value) (hk : v.kind = w.kind)
    (a : Int) (b : Nat) :
    getGaugeType v = getGaugeType w ∧
    getGaugeType (.int8 a) = "i" ∧ getGaugeType (.int16 a) = "i" ∧
    getGaugeType (.int32 a) = "i" ∧ getGaugeType (.int64 a) = "l" ∧
    getGaugeType (.uint8 b) = "I" ∧ getGaugeType (.uint16 b) = "I" ∧
    getGaugeType (.uint32 b) = "I" ∧ getGaugeType (.uint b) = "I" ∧
    getGaugeType (.uint64 b) = "L" := by
  refine ⟨?_, rfl, rfl, rfl, rfl, rfl, rfl, rfl, rfl, rfl⟩
  cases v <;> cases w <;> simp_all [Value.kind, getGaugeType]

/-- C3, at `uint8` 200 and `uint8` 3. -/
theorem getGaugeType_fixed_width_table_witness :
    (Value.uint8 200).kind = (Value.uint8 3).kind ∧
    getGaugeType (.uint8 200) = getGaugeType (.uint8 3) :=
  ⟨rfl, (getGaugeType_fixed_width_table (.uint8 200) (.uint8 3) rfl 0 0).1⟩

/-- C4: `getGaugeType` is a total function; every `float32`, every `float64` and every
value of a kind outside the numeric ones is tagged "n", and the tag of any value is one
of "i", "I", "l", "L", "n". -/
theorem getGaugeType_default_tag (v u : Value) (hu : u.kind.supported = false)
    (x y : Nat) :
    getGaugeType (.float32 x) = "n" ∧ getGaugeType (.float64 y) = "n" ∧
    getGaugeType u = "n" ∧
    (getGaugeType v = "i" ∨ getGaugeType v = "I" ∨ getGaugeType v = "l" ∨
      getGaugeType v = "L" ∨ getGaugeType v = "n") := by
  refine ⟨rfl, rfl, ?_, ?_⟩
  · cases u <;> simp_all [Value.kind, Kind.supported, getGaugeType]
  · cases v <;> simp [getGaugeType]

/-- C4, at the string "up" and the `int64` 5. -/
theorem getGaugeType_default_tag_witness :
    (Value.string "up").kind.supported = false ∧ getGaugeType (.string "up") = "n" :=
  ⟨rfl, (getGaugeType_default_tag (.int64 5) (.string "up") rfl 0 0).2.2.1⟩

/-! ## Wrapping arithmetic -/

theorem two_pow_pred_double (w : Nat) (hw : 0 < w) :
    (2 : Int) ^ w = 2 * 2 ^ (w - 1) := by
  obtain ⟨n, rfl⟩ : ∃ n, w = n + 1 := ⟨w - 1, by omega⟩
  simp [pow_succ, mul_comm]

theorem wrapSigned_lower (w : Nat) (x : Int) : -2 ^ (w - 1) ≤ wrapSigned w x := by
  unfold wrapSigned
  have h : (0 : Int) ≤ (x + 2 ^ (w - 1)) % 2 ^ w :=
    Int.emod_nonneg _ (by positivity)
  omega

theorem wrapSigned_upper (w : Nat) (hw : 0 < w) (x : Int) :
    wrapSigned w x < 2 ^ (w - 1) := by
  unfold wrapSigned
  have h : (x + 2 ^ (w - 1)) % 2 ^ w < 2 ^ w :=
    Int.emod_lt_of_pos _ (by positivity)
  have h2 := two_pow_pred_double w hw
  omega

theorem wrapSigned_emod (w : Nat) (x : Int) :
    wrapSigned w x % 2 ^ w = x % 2 ^ w := by
  unfold wrapSigned
  rw [Int.sub_emod, Int.emod_emod, ← Int.sub_emod]
  simp

theorem wrapUnsigned_lt (w x : Nat) : wrapUnsigned w x < 2 ^ w := by
  unfold wrapUnsigned
  exact Nat.mod_lt _ (by positivity)

theorem wrapUnsigned_emod (w x y : Nat) :
    ((wrapUnsigned w (x + y) : Nat) : Int) % 2 ^ w = ((x : Int) + (y : Int)) % 2 ^ w := by
  unfold wrapUnsigned
  push_cast
  rw [Int.emod_emod]

theorem Platform.intBits_pos (p : Platform) : 0 < p.intBits := by
  rcases p.intBits_ok with h | h <;> omega

/-! ## Single steps of the store -/

theorem AddGauge_absent (p : Platform) (m : CirconusMetrics) (key : String) (val : Value)
    (h : m.gauges.lookup key = none) :
    AddGauge p m key val = .returned (SetGauge m key val) := by
  simp [AddGauge, SetGauge, h]

theorem SetGauge_lookup (m : CirconusMetrics) (key : String) (val : Value) :
    (SetGauge m key val).gauges.lookup key = some val := by
  simp [SetGauge, GoMap.lookup_assign_same]

theorem SetGauge_SetGauge (m : CirconusMetrics) (key : String) (a b : Value) :
    SetGauge (SetGauge m key a) key b = SetGauge m key b := by
  simp [SetGauge, GoMap.assign_assign]

/-- C5: starting from a store without the key, `AddGauge` of `v1` and then of `v2`, both
of one integer kind of `w` bits, returns with the key holding a value of that kind, in
the range of the kind and congruent to `v1 + v2` modulo `2 ^ w` (the wrapped sum, so
`uint8` 200 and 100 leave 44), and nothing else changed; for `float32` and `float64`
the key holds the platform's float sum. -/
theorem AddGauge_twice_same_kind (p : Platform) (m : CirconusMetrics) (key : String)
    (v1 v2 : Value) (w : Nat) (x y : Nat)
    (habs : m.gauges.lookup key = none) (hk : v2.kind = v1.kind)
    (hw : v1.kind.intBits p = some w) :
    (∃ r : Value,
      (AddGauge p m key v1).andThen (fun m1 => AddGauge p m1 key v2)
        = .returned (SetGauge m key r) ∧
      r.kind = v1.kind ∧ r.inRange p ∧
      r.toInt % 2 ^ w = (v1.toInt + v2.toInt) % 2 ^ w) ∧
    (AddGauge p m key (.uint8 200)).andThen (fun m1 => AddGauge p m1 key (.uint8 100))
      = .returned (SetGauge m key (.uint8 44)) ∧
    (AddGauge p m key (.float32 x)).andThen (fun m1 => AddGauge p m1 key (.float32 y))
      = .returned (SetGauge m key (.float32 (p.addFloat32 x y))) ∧
    (AddGauge p m key (.float64 x)).andThen (fun m1 => AddGauge p m1 key (.float64 y))
      = .returned (SetGauge m key (.float64 (p.addFloat64 x y))) := by
  have hpos := p.intBits_pos
  refine ⟨?_, ?_, ?_, ?_⟩
  · cases v1 <;> cases v2 <;> simp [Value.kind] at hk <;>
      simp [Kind.intBits, Value.kind] at hw <;> subst hw
    case int.int a b =>
      refine ⟨.int (wrapSigned p.intBits (a + b)), ?_, rfl, ?_, ?_⟩
      · simp [AddGauge_absent, habs, Outcome.andThen, AddGauge, SetGauge,
          GoMap.lookup_assign_same, GoMap.assign_assign]
      · exact ⟨wrapSigned_lower _ _, wrapSigned_upper _ hpos _⟩
      · exact wrapSigned_emod _ _
    case int8.int8 a b =>
      refine ⟨.int8 (wrapSigned 8 (a + b)), ?_, rfl, ?_, ?_⟩
      · simp [AddGauge_absent, habs, Outcome.andThen, AddGauge, SetGauge,
          GoMap.lookup_assign_same, GoMap.assign_assign]
      · exact ⟨wrapSigned_lower 8 _, wrapSigned_upper 8 (by decide) _⟩
      · exact wrapSigned_emod _ _
    case int16.int16 a b =>
      refine ⟨.int16 (wrapSigned 16 (a + b)), ?_, rfl, ?_, ?_⟩
      · simp [AddGauge_absent, habs, Outcome.andThen, AddGauge, SetGauge,
          GoMap.lookup_assign_same, GoMap.assign_assign]
      · exact ⟨wrapSigned_lower 16 _, wrapSigned_upper 16 (by decide) _⟩
      · exact wrapSigned_emod _ _
    case int32.int32 a b =>
      refine ⟨.int32 (wrapSigned 32 (a + b)), ?_, rfl, ?_, ?_⟩
      · simp [AddGauge_absent, habs, Outcome.andThen, AddGauge, SetGauge,
          GoMap.lookup_assign_same, GoMap.assign_assign]
      · exact ⟨wrapSigned_lower 32 _, wrapSigned_upper 32 (by decide) _⟩
      · exact wrapSigned_emod _ _
    case int64.int64 a b =>
      refine ⟨.int64 (wrapSigned 64 (a + b)), ?_, rfl, ?_, ?_⟩
      · simp [AddGauge_absent, habs, Outcome.andThen, AddGauge, SetGauge,
          GoMap.lookup_assign_same, GoMap.assign_assign]
      · exact ⟨wrapSigned_lower 64 _, wrapSigned_upper 64 (by decide) _⟩
      · exact wrapSigned_emod _ _
    case uint.uint a b =>
      refine ⟨.uint (wrapUnsigned p.intBits (a + b)), ?_, rfl, ?_, ?_⟩
      · simp [AddGauge_absent, habs, Outcome.andThen, AddGauge, SetGauge,
          GoMap.lookup_assign_same, GoMap.assign_assign]
      · exact wrapUnsigned_lt _ _
      · exact wrapUnsigned_emod _ _ _
    case uint8.uint8 a b =>
      refine ⟨.uint8 (wrapUnsigned 8 (a + b)), ?_, rfl, ?_, ?_⟩
      · simp [AddGauge_absent, habs, Outcome.andThen, AddGauge, SetGauge,
          GoMap.lookup_assign_same, GoMap.assign_assign]
      · exact wrapUnsigned_lt _ _
      · exact wrapUnsigned_emod _ _ _
    case uint16.uint16 a b =>
      refine ⟨.uint16 (wrapUnsigned 16 (a + b)), ?_, rfl, ?_, ?_⟩
      · simp [AddGauge_absent, habs, Outcome.andThen, AddGauge, SetGauge,
          GoMap.lookup_assign_same, GoMap.assign_assign]
      · exact wrapUnsigned_lt _ _
      · exact wrapUnsigned_emod _ _ _
    case uint32.uint32 a b =>
      refine ⟨.uint32 (wrapUnsigned 32 (a + b)), ?_, rfl, ?_, ?_⟩
      · simp [AddGauge_absent, habs, Outcome.andThen, AddGauge, SetGauge,
          GoMap.lookup_assign_same, GoMap.assign_assign]
      · exact wrapUnsigned_lt _ _
      · exact wrapUnsigned_emod _ _ _
    case uint64.uint64 a b =>
      refine ⟨.uint64 (wrapUnsigned 64 (a + b)), ?_, rfl, ?_, ?_⟩
      · simp [AddGauge_absent, habs, Outcome.andThen, AddGauge, SetGauge,
          GoMap.lookup_assign_same, GoMap.assign_assign]
      · exact wrapUnsigned_lt _ _
      · exact wrapUnsigned_emod _ _ _
  · simp [AddGauge_absent, habs, Outcome.andThen, AddGauge, SetGauge,
      GoMap.lookup_assign_same, GoMap.assign_assign, wrapUnsigned]
  · simp [AddGauge_absent, habs, Outcome.andThen, AddGauge, SetGauge,
      GoMap.lookup_assign_same, GoMap.assign_assign]
  · simp [AddGauge_absent, habs, Outcome.andThen, AddGauge, SetGauge,
      GoMap.lookup_assign_same, GoMap.assign_assign]

/-- C5, on `amd64` from the empty store, at `int8` 100 and `int8` 100 (the sum 200 does
not fit and wraps). -/
theorem AddGauge_twice_same_kind_witness :
    CirconusMetrics.init.gauges.lookup "load" = none ∧
    (Value.int8 100).kind = (Value.int8 100).kind ∧
    (Value.int8 100).kind.intBits amd64 = some 8 ∧
    ∃ r : Value,
      (AddGauge amd64 CirconusMetrics.init "load" (.int8 100)).andThen
          (fun m1 => AddGauge amd64 m1 "load" (.int8 100))
        = .returned (SetGauge CirconusMetrics.init "load" r) ∧
      r.kind = (Value.int8 100).kind ∧ r.inRange amd64 ∧
      r.toInt % 2 ^ 8 = ((Value.int8 100).toInt + (Value.int8 100).toInt) % 2 ^ 8 :=
  ⟨rfl, rfl, rfl,
    (AddGauge_twice_same_kind amd64 CirconusMetrics.init "load" (.int8 100) (.int8 100)
      8 0 0 rfl rfl rfl).1⟩

/-- C6: on a store without the key, `AddGauge` returns and leaves exactly the store
`SetGauge` leaves: the key holds the incoming value, of whatever kind, as it came. -/
theorem AddGauge_absent_eq_SetGauge (p : Platform) (m : CirconusMetrics) (key : String)
    (v : Value) (habs : m.gauges.lookup key = none) :
    AddGauge p m key v = .returned (SetGauge m key v) ∧
    (AddGauge p m key v).state.gauges.lookup key = some v := by
  rw [AddGauge_absent p m key v habs]
  exact ⟨rfl, SetGauge_lookup m key v⟩

/-- C6, on `amd64` from the empty store, at a string value. -/
theorem AddGauge_absent_eq_SetGauge_witness :
    CirconusMetrics.init.gauges.lookup "host" = none ∧
    AddGauge amd64 CirconusMetrics.init "host" (.string "web1")
      = .returned (SetGauge CirconusMetrics.init "host" (.string "web1")) :=
  ⟨rfl, (AddGauge_absent_eq_SetGauge amd64 CirconusMetrics.init "host" (.string "web1")
    rfl).1⟩

/-- C7: when the key is present and the incoming value has a kind the type switch has
no case for, `AddGauge` returns and the state is the one it started from. -/
theorem AddGauge_unsupported_noop (p : Platform) (m : CirconusMetrics) (key : String)
    (v val : Value) (hpres : m.gauges.lookup key = some v)
    (hk : val.kind.supported = false) :
    AddGauge p m key val = .returned m := by
  cases val <;> simp [Value.kind, Kind.supported] at hk <;> simp [AddGauge, hpres]

/-- C7, on `amd64`, with `int64` 5 stored and the nil value coming in. -/
theorem AddGauge_unsupported_noop_witness :
    (SetGauge CirconusMetrics.init "free" (.int64 5)).gauges.lookup "free"
      = some (.int64 5) ∧
    Value.nil.kind.supported = false ∧
    AddGauge amd64 (SetGauge CirconusMetrics.init "free" (.int64 5)) "free" .nil
      = .returned (SetGauge CirconusMetrics.init "free" (.int64 5)) :=
  ⟨by decide, rfl,
    AddGauge_unsupported_noop amd64 (SetGauge CirconusMetrics.init "free" (.int64 5))
      "free" (.int64 5) .nil (by decide) rfl⟩

/-- C8: when the key holds a value of one kind and the incoming value is of a different,
supported kind, the state `AddGauge` leaves is the state it started from, so the key
holds the same value of the same kind as before (the call itself ends in the panic of
the failed type assertion). -/
theorem AddGauge_mismatch_keeps_entry (p : Platform) (m : CirconusMetrics) (key : String)
    (v val : Value) (hpres : m.gauges.lookup key = some v)
    (hsup : val.kind.supported = true) (hne : val.kind ≠ v.kind) :
    (AddGauge p m key val).state = m ∧
    (AddGauge p m key val).state.gauges.lookup key = some v ∧
    (AddGauge p m key val).panic = some ⟨v.kind, val.kind⟩ := by
  have h : AddGauge p m key val = .panicked m ⟨v.kind, val.kind⟩ := by
    cases val <;> simp [Value.kind, Kind.supported] at hsup <;>
      cases v <;> simp [Value.kind] at hne <;> simp [AddGauge, hpres, Value.kind]
  rw [h]
  exact ⟨rfl, hpres, rfl⟩

/-- C8, on `amd64`, with `int64` 5 stored and `float64` 1.0 coming in. -/
theorem AddGauge_mismatch_keeps_entry_witness :
    (SetGauge CirconusMetrics.init "free" (.int64 5)).gauges.lookup "free"
      = some (.int64 5) ∧
    (Value.float64 0x3FF0000000000000).kind.supported = true ∧
    (Value.float64 0x3FF0000000000000).kind ≠ (Value.int64 5).kind ∧
    (AddGauge amd64 (SetGauge CirconusMetrics.init "free" (.int64 5)) "free"
        (.float64 0x3FF0000000000000)).state.gauges.lookup "free" = some (.int64 5) :=
  ⟨by decide, rfl, by decide,
    (AddGauge_mismatch_keeps_entry amd64 (SetGauge CirconusMetrics.init "free" (.int64 5))
      "free" (.int64 5) (.float64 0x3FF0000000000000) (by decide) rfl (by decide)).2.1⟩

/-- C9: after `SetGauge` of `v`, whatever the store held before, `GetGaugeTest` returns
`v` itself with a nil error and leaves the state alone; of two successive `SetGauge`
calls on one key the second decides the value. -/
theorem GetGaugeTest_after_SetGauge (m : CirconusMetrics) (key : String) (v a b : Value) :
    GetGaugeTest (SetGauge m key v) key = ⟨SetGauge m key v, v, none⟩ ∧
    (GetGaugeTest (SetGauge (SetGauge m key a) key b) key).val = b ∧
    (GetGaugeTest (SetGauge (SetGauge m key a) key b) key).err = none := by
  simp [GetGaugeTest, SetGauge_lookup]

/-- C10: after `RemoveGauge`, `GetGaugeTest` of the key ends with an error; on a store
without the key `RemoveGauge` returns the store it was given; a second `RemoveGauge`
changes nothing. -/
theorem RemoveGauge_then_not_found (m : CirconusMetrics) (key : String)
    (m0 : CirconusMetrics) (key0 : String) (habs : m0.gauges.lookup key0 = none) :
    (GetGaugeTest (RemoveGauge m key) key).err ≠ none ∧
    (GetGaugeTest (RemoveGauge m key) key).val = .nil ∧
    RemoveGauge m0 key0 = m0 ∧
    RemoveGauge (RemoveGauge m key) key = RemoveGauge m key := by
  refine ⟨?_, ?_, ?_, ?_⟩
  · simp [GetGaugeTest, RemoveGauge, GoMap.lookup_delete_same]
  · simp [GetGaugeTest, RemoveGauge, GoMap.lookup_delete_same]
  · simp [RemoveGauge, GoMap.delete_absent _ _ habs]
  · simp [RemoveGauge, GoMap.delete_absent _ _ (GoMap.lookup_delete_same m.gauges key)]

/-- C10, with `int64` 5 stored under "free" and nothing under "idle". -/
theorem RemoveGauge_then_not_found_witness :
    (SetGauge CirconusMetrics.init "free" (.int64 5)).gauges.lookup "idle" = none ∧
    (GetGaugeTest (RemoveGauge (SetGauge CirconusMetrics.init "free" (.int64 5)) "free")
        "free").err ≠ none ∧
    RemoveGauge (SetGauge CirconusMetrics.init "free" (.int64 5)) "idle"
      = SetGauge CirconusMetrics.init "free" (.int64 5) :=
  ⟨by decide,
    (RemoveGauge_then_not_found (SetGauge CirconusMetrics.init "free" (.int64 5)) "free"
      (SetGauge CirconusMetrics.init "free" (.int64 5)) "idle" (by decide)).1,
    (RemoveGauge_then_not_found (SetGauge CirconusMetrics.init "free" (.int64 5)) "free"
      (SetGauge CirconusMetrics.init "free" (.int64 5)) "idle" (by decide)).2.2.1⟩

/-! ## Further facts about maps and wrapping -/

theorem GoMap.lookup_delete_other {β : Type} (g : GoMap β) (k j : String)
    (h : j ≠ k) : (g.delete k).lookup j = g.lookup j := by
  simp [GoMap.lookup, GoMap.delete, h]

theorem wrapSigned_add_left (w : Nat) (x y : Int) :
    wrapSigned w (wrapSigned w x + y) = wrapSigned w (x + y) := by
  have h : (wrapSigned w x + y + 2 ^ (w - 1)) % 2 ^ w = (x + y + 2 ^ (w - 1)) % 2 ^ w := by
    rw [add_assoc, add_assoc, Int.add_emod, wrapSigned_emod, ← Int.add_emod]
  unfold wrapSigned at h ⊢
  rw [h]

theorem wrapUnsigned_add_left (w x y : Nat) :
    wrapUnsigned w (wrapUnsigned w x + y) = wrapUnsigned w (x + y) := by
  unfold wrapUnsigned
  exact Nat.mod_add_mod x (2 ^ w) y

theorem AddGauge_state_gaugeFuncs (p : Platform) (m : CirconusMetrics) (key : String)
    (val : Value) : (AddGauge p m key val).state.gaugeFuncs = m.gaugeFuncs := by
  unfold AddGauge
  cases hl : m.gauges.lookup key with
  | none => rfl
  | some v => cases val <;> cases v <;> rfl

theorem AddGauge_state_lookup_other (p : Platform) (m : CirconusMetrics) (k j : String)
    (val : Value) (h : j ≠ k) :
    (AddGauge p m k val).state.gauges.lookup j = m.gauges.lookup j := by
  unfold AddGauge
  cases hl : m.gauges.lookup k with
  | none => simp [Outcome.state, GoMap.lookup_assign_other _ _ _ _ h]
  | some v =>
    cases val <;> cases v <;>
      simp [Outcome.state, GoMap.lookup_assign_other _ _ _ _ h]

/-! ## Reading, the registry, tagged metrics -/

/-- C11: `GetGaugeTest` ends with an error exactly when the key is absent.  For a
present key it returns the stored value and a nil error; for an absent key it returns
the nil value and the error "Gauge metric '<metric>' not found"; either way the state
is the one it was given. -/
theorem GetGaugeTest_error_iff_absent (m : CirconusMetrics) (key : String)
    (mp : CirconusMetrics) (kp : String) (v : Value)
    (hpres : mp.gauges.lookup kp = some v)
    (ma : CirconusMetrics) (ka : String) (habs : ma.gauges.lookup ka = none) :
    ((GetGaugeTest m key).err ≠ none ↔ m.gauges.lookup key = none) ∧
    (GetGaugeTest m key).state = m ∧
    GetGaugeTest mp kp = ⟨mp, v, none⟩ ∧
    GetGaugeTest ma ka = ⟨ma, .nil, some ("Gauge metric '" ++ ka ++ "' not found")⟩ := by
  refine ⟨?_, ?_, ?_, ?_⟩
  · unfold GetGaugeTest
    cases m.gauges.lookup key <;> simp
  · unfold GetGaugeTest
    cases m.gauges.lookup key <;> rfl
  · simp [GetGaugeTest, hpres]
  · simp [GetGaugeTest, habs]

/-- C11, with `int64` 5 stored under "free" and nothing under "idle". -/
theorem GetGaugeTest_error_iff_absent_witness :
    (SetGauge CirconusMetrics.init "free" (.int64 5)).gauges.lookup "free"
      = some (.int64 5) ∧
    (SetGauge CirconusMetrics.init "free" (.int64 5)).gauges.lookup "idle" = none ∧
    GetGaugeTest (SetGauge CirconusMetrics.init "free" (.int64 5)) "idle"
      = ⟨SetGauge CirconusMetrics.init "free" (.int64 5), .nil,
          some "Gauge metric 'idle' not found"⟩ :=
  ⟨by decide, by decide,
    (GetGaugeTest_error_iff_absent (SetGauge CirconusMetrics.init "free" (.int64 5)) "free"
      (SetGauge CirconusMetrics.init "free" (.int64 5)) "free" (.int64 5) (by decide)
      (SetGauge CirconusMetrics.init "free" (.int64 5)) "idle" (by decide)).2.2.2⟩

/-- C12: after `SetGaugeFunc` the registry maps the key to the function given,
whatever was registered before; after `RemoveGaugeFunc` the key is absent, and on a
registry without the key `RemoveGaugeFunc` returns the state it was given; both leave
the function of every other key as it was. -/
theorem SetGaugeFunc_RemoveGaugeFunc_registry (m : CirconusMetrics) (key : String)
    (fn : GaugeFunc) (j : String) (hj : j ≠ key)
    (m0 : CirconusMetrics) (key0 : String) (habs : m0.gaugeFuncs.lookup key0 = none) :
    (SetGaugeFunc m key fn).gaugeFuncs.lookup key = some fn ∧
    (RemoveGaugeFunc m key).gaugeFuncs.lookup key = none ∧
    RemoveGaugeFunc m0 key0 = m0 ∧
    (SetGaugeFunc m key fn).gaugeFuncs.lookup j = m.gaugeFuncs.lookup j ∧
    (RemoveGaugeFunc m key).gaugeFuncs.lookup j = m.gaugeFuncs.lookup j := by
  refine ⟨?_, ?_, ?_, ?_, ?_⟩
  · simp [SetGaugeFunc, GoMap.lookup_assign_same]
  · simp [RemoveGaugeFunc, GoMap.lookup_delete_same]
  · simp [RemoveGaugeFunc, GoMap.delete_absent _ _ habs]
  · simp [SetGaugeFunc, GoMap.lookup_assign_other _ _ _ _ hj]
  · simp [RemoveGaugeFunc, GoMap.lookup_delete_other _ _ _ hj]

/-- C12, on the empty registry, registering the constant function 7 under "conns". -/
theorem SetGaugeFunc_RemoveGaugeFunc_registry_witness :
    "open" ≠ "conns" ∧ CirconusMetrics.init.gaugeFuncs.lookup "open" = none ∧
    (SetGaugeFunc CirconusMetrics.init "conns" (fun _ => 7)).gaugeFuncs.lookup "open"
      = CirconusMetrics.init.gaugeFuncs.lookup "open" ∧
    RemoveGaugeFunc CirconusMetrics.init "open" = CirconusMetrics.init :=
  ⟨by decide, rfl,
    (SetGaugeFunc_RemoveGaugeFunc_registry CirconusMetrics.init "conns" (fun _ => 7)
      "open" (by decide) CirconusMetrics.init "open" rfl).2.2.2.1,
    (SetGaugeFunc_RemoveGaugeFunc_registry CirconusMetrics.init "conns" (fun _ => 7)
      "open" (by decide) CirconusMetrics.init "open" rfl).2.2.1⟩

/-- C13: the store and the registry are separate maps.  `SetGaugeFunc` and
`RemoveGaugeFunc` leave `gauges` as it was; `SetGauge`, `AddGauge` (however it ends),
`RemoveGauge` and `GetGaugeTest` leave `gaugeFuncs` as it was. -/
theorem store_and_registry_independent (p : Platform) (m : CirconusMetrics)
    (key : String) (v : Value) (fn : GaugeFunc) :
    (SetGaugeFunc m key fn).gauges = m.gauges ∧
    (RemoveGaugeFunc m key).gauges = m.gauges ∧
    (SetGauge m key v).gaugeFuncs = m.gaugeFuncs ∧
    (AddGauge p m key v).state.gaugeFuncs = m.gaugeFuncs ∧
    (RemoveGauge m key).gaugeFuncs = m.gaugeFuncs ∧
    (GetGaugeTest m key).state.gaugeFuncs = m.gaugeFuncs := by
  refine ⟨rfl, rfl, rfl, AddGauge_state_gaugeFuncs p m key v, rfl, ?_⟩
  unfold GetGaugeTest
  cases m.gauges.lookup key <;> rfl

/-- C15: each tagged operation is the base operation at the composed key
`MetricNameWithStreamTags metric tags`, and `Gauge` and `GaugeWithTags` are `SetGauge`
and `SetGaugeWithTags`. -/
theorem tagged_operations_are_base_operations {Tags : Type}
    (MetricNameWithStreamTags : String → Tags → String) (p : Platform)
    (m : CirconusMetrics) (metric : String) (tags : Tags) (val : Value)
    (fn : GaugeFunc) :
    SetGaugeWithTags MetricNameWithStreamTags m metric tags val
      = SetGauge m (MetricNameWithStreamTags metric tags) val ∧
    AddGaugeWithTags MetricNameWithStreamTags p m metric tags val
      = AddGauge p m (MetricNameWithStreamTags metric tags) val ∧
    RemoveGaugeWithTags MetricNameWithStreamTags m metric tags
      = RemoveGauge m (MetricNameWithStreamTags metric tags) ∧
    SetGaugeFuncWithTags MetricNameWithStreamTags m metric tags fn
      = SetGaugeFunc m (MetricNameWithStreamTags metric tags) fn ∧
    RemoveGaugeFuncWithTags MetricNameWithStreamTags m metric tags
      = RemoveGaugeFunc m (MetricNameWithStreamTags metric tags) ∧
    Gauge m metric val = SetGauge m metric val ∧
    GaugeWithTags MetricNameWithStreamTags m metric tags val
      = SetGaugeWithTags MetricNameWithStreamTags m metric tags val :=
  ⟨rfl, rfl, rfl, rfl, rfl, rfl, rfl⟩

/-- C19: `SetGauge`, `AddGauge` (returning or not) and `RemoveGauge` on one key leave
the entry of every other key, present or absent, as it was. -/
theorem store_mutations_local (p : Platform) (m : CirconusMetrics) (k j : String)
    (v : Value) (hne : j ≠ k) :
    (SetGauge m k v).gauges.lookup j = m.gauges.lookup j ∧
    (AddGauge p m k v).state.gauges.lookup j = m.gauges.lookup j ∧
    (RemoveGauge m k).gauges.lookup j = m.gauges.lookup j := by
  refine ⟨?_, AddGauge_state_lookup_other p m k j v hne, ?_⟩
  · simp [SetGauge, GoMap.lookup_assign_other _ _ _ _ hne]
  · simp [RemoveGauge, GoMap.lookup_delete_other _ _ _ hne]

/-- C19, with `int64` 5 under "free" and `uint8` 9 under "busy", adding to "free". -/
theorem store_mutations_local_witness :
    "busy" ≠ "free" ∧
    (AddGauge amd64
        (SetGauge (SetGauge CirconusMetrics.init "free" (.int64 5)) "busy" (.uint8 9))
        "free" (.int64 1)).state.gauges.lookup "busy"
      = (SetGauge (SetGauge CirconusMetrics.init "free" (.int64 5)) "busy"
          (.uint8 9)).gauges.lookup "busy" :=
  ⟨by decide,
    (store_mutations_local amd64
      (SetGauge (SetGauge CirconusMetrics.init "free" (.int64 5)) "busy" (.uint8 9))
      "free" "busy" (.int64 1) (by decide)).2.1⟩

/-! ## Combination of same-kind values -/

theorem getGaugeType_congr (v w : Value) (h : v.kind = w.kind) :
    getGaugeType v = getGaugeType w := by
  cases v <;> cases w <;> simp_all [Value.kind, getGaugeType]

theorem AddGauge_present_sum (p : Platform) (m : CirconusMetrics) (key : String)
    (v val : Value) (hpres : m.gauges.lookup key = some v)
    (hsup : v.kind.supported = true) (hk : val.kind = v.kind) :
    ∃ r : Value, nativeSum p v val = some r ∧ r.kind = v.kind ∧
      AddGauge p m key val = .returned (SetGauge m key r) := by
  cases v <;> simp [Value.kind, Kind.supported] at hsup <;>
    cases val <;> simp [Value.kind] at hk <;>
    exact ⟨_, rfl, rfl, by simp [AddGauge, hpres, SetGauge]⟩

theorem combines_iff (p : Platform) (K : Kind) : combines p K ↔ K ∈ numericKinds := by
  constructor
  · intro h
    cases K
    case string =>
      exfalso
      obtain ⟨r, hr, hadd⟩ := h (SetGauge CirconusMetrics.init "k" (.string "")) "k"
        (.string "") (.string "x") rfl rfl (SetGauge_lookup _ _ _)
      simp [nativeSum] at hr
      subst hr
      have hst := congrArg (fun o => o.state.gauges.lookup "k") hadd
      simp [AddGauge, SetGauge_lookup, Outcome.state] at hst
    case bool =>
      exfalso
      obtain ⟨r, hr, -⟩ := h (SetGauge CirconusMetrics.init "k" (.bool false)) "k"
        (.bool false) (.bool false) rfl rfl (SetGauge_lookup _ _ _)
      simp [nativeSum] at hr
    case nil =>
      exfalso
      obtain ⟨r, hr, -⟩ := h (SetGauge CirconusMetrics.init "k" .nil) "k"
        .nil .nil rfl rfl (SetGauge_lookup _ _ _)
      simp [nativeSum] at hr
    case other t =>
      exfalso
      obtain ⟨r, hr, -⟩ := h (SetGauge CirconusMetrics.init "k" (.other t "")) "k"
        (.other t "") (.other t "") rfl rfl (SetGauge_lookup _ _ _)
      simp [nativeSum] at hr
    all_goals simp [numericKinds]
  · intro hK m key a b ha hb hl
    have hsup : a.kind.supported = true := by
      rw [ha]
      simp only [numericKinds, List.mem_cons, List.mem_singleton, List.mem_nil_iff,
        or_false] at hK
      rcases hK with h | h | h | h | h | h | h | h | h | h | h | h <;> subst h <;> rfl
    obtain ⟨r, hr, -, hadd⟩ := AddGauge_present_sum p m key a b hl hsup (hb.trans ha.symm)
    exact ⟨r, hr, hadd⟩

/-- C16 (as stated, refuted): on `amd64` the kinds `AddGauge` combines are not a set of
eleven members. -/
theorem combined_kinds_not_eleven :
    ¬ ∃ l : List Kind, l.Nodup ∧ l.length = 11 ∧ ∀ K, combines amd64 K ↔ K ∈ l := by
  rintro ⟨l, hnd, hlen, hl⟩
  have hnd2 : numericKinds.Nodup := by decide
  have hperm : l.Perm numericKinds :=
    (List.perm_ext_iff_of_nodup hnd hnd2).2
      (fun K => (hl K).symm.trans (combines_iff amd64 K))
  have := hperm.length_eq
  rw [hlen] at this
  exact absurd this (by decide)

/-- C16 (amended): the kinds `AddGauge` combines are exactly the supported numeric kinds
of the data model (signed 8/16/32/64-bit and machine-width, unsigned 8/16/32/64-bit and
machine-width, floating point 32/64-bit), and these are twelve different kinds. -/
theorem combined_kinds_are_the_twelve_numeric (p : Platform) (K : Kind) :
    (combines p K ↔ K ∈ numericKinds) ∧ numericKinds.Nodup ∧ numericKinds.length = 12 :=
  ⟨combines_iff p K, by decide, rfl⟩

/-- C16 (amended), on `amd64` at `int64`: it is one of the twelve, so it is combined. -/
theorem combined_kinds_are_the_twelve_numeric_witness :
    Kind.int64 ∈ numericKinds ∧ combines amd64 Kind.int64 :=
  ⟨by decide, (combined_kinds_are_the_twelve_numeric amd64 Kind.int64).1.2 (by decide)⟩

/-- C17: when the key holds a value of a supported kind and a value of the same kind
comes in, `AddGauge` returns and the key then holds a value of that same kind, with the
same resmon type as the value it held before. -/
theorem AddGauge_preserves_kind (p : Platform) (m : CirconusMetrics) (key : String)
    (v val : Value) (hpres : m.gauges.lookup key = some v)
    (hsup : v.kind.supported = true) (hk : val.kind = v.kind) :
    ∃ r : Value, AddGauge p m key val = .returned (SetGauge m key r) ∧
      (AddGauge p m key val).state.gauges.lookup key = some r ∧
      r.kind = v.kind ∧ getGaugeType r = getGaugeType v := by
  obtain ⟨r, -, hrk, hadd⟩ := AddGauge_present_sum p m key v val hpres hsup hk
  refine ⟨r, hadd, ?_, hrk, getGaugeType_congr r v hrk⟩
  rw [hadd]
  exact SetGauge_lookup m key r

/-- C17, on `amd64`, with `uint32` 7 stored and `uint32` 8 coming in. -/
theorem AddGauge_preserves_kind_witness :
    (SetGauge CirconusMetrics.init "busy" (.uint32 7)).gauges.lookup "busy"
      = some (.uint32 7) ∧
    (Value.uint32 7).kind.supported = true ∧
    (Value.uint32 8).kind = (Value.uint32 7).kind ∧
    ∃ r : Value,
      AddGauge amd64 (SetGauge CirconusMetrics.init "busy" (.uint32 7)) "busy" (.uint32 8)
        = .returned (SetGauge (SetGauge CirconusMetrics.init "busy" (.uint32 7)) "busy" r) ∧
      (AddGauge amd64 (SetGauge CirconusMetrics.init "busy" (.uint32 7)) "busy"
        (.uint32 8)).state.gauges.lookup "busy" = some r ∧
      r.kind = (Value.uint32 7).kind ∧ getGaugeType r = getGaugeType (.uint32 7) :=
  ⟨by decide, rfl, rfl,
    AddGauge_preserves_kind amd64 (SetGauge CirconusMetrics.init "busy" (.uint32 7))
      "busy" (.uint32 7) (.uint32 8) (by decide) rfl rfl⟩

/-- C18: for two values `a` and `b` of one integer kind, on a store where the key is
absent or holds a value of that kind, `AddGauge` of `a` then `b` and `AddGauge` of `b`
then `a` end the same way, with the same store. -/
theorem AddGauge_same_kind_commute (p : Platform) (m : CirconusMetrics) (key : String)
    (a b : Value) (w : Nat) (hk : b.kind = a.kind) (hw : a.kind.intBits p = some w)
    (hst : m.gauges.lookup key = none ∨
      ∃ v, m.gauges.lookup key = some v ∧ v.kind = a.kind) :
    (AddGauge p m key a).andThen (fun m1 => AddGauge p m1 key b)
      = (AddGauge p m key b).andThen (fun m1 => AddGauge p m1 key a) := by
  rcases hst with habs | ⟨v, hv, hvk⟩
  · cases a <;> simp [Value.kind, Kind.intBits] at hw <;>
      cases b <;> simp [Value.kind] at hk <;>
      simp [AddGauge_absent, habs, Outcome.andThen, AddGauge, SetGauge,
        GoMap.lookup_assign_same, GoMap.assign_assign, add_comm]
  · cases a <;> simp [Value.kind, Kind.intBits] at hw <;>
      cases b <;> simp [Value.kind] at hk <;>
      cases v <;> simp [Value.kind] at hvk <;>
      simp [Outcome.andThen, AddGauge, hv, GoMap.lookup_assign_same,
        GoMap.assign_assign, wrapSigned_add_left, wrapUnsigned_add_left, add_right_comm]

/-- C18, on `amd64`, with `int8` 100 stored and `int8` 100 and `int8` (-3) coming in. -/
theorem AddGauge_same_kind_commute_witness :
    (Value.int8 (-3)).kind = (Value.int8 100).kind ∧
    (Value.int8 100).kind.intBits amd64 = some 8 ∧
    (SetGauge CirconusMetrics.init "load" (.int8 100)).gauges.lookup "load"
      = some (.int8 100) ∧
    (AddGauge amd64 (SetGauge CirconusMetrics.init "load" (.int8 100)) "load"
        (.int8 100)).andThen (fun m1 => AddGauge amd64 m1 "load" (.int8 (-3)))
      = (AddGauge amd64 (SetGauge CirconusMetrics.init "load" (.int8 100)) "load"
        (.int8 (-3))).andThen (fun m1 => AddGauge amd64 m1 "load" (.int8 100)) :=
  ⟨rfl, rfl, by decide,
    AddGauge_same_kind_commute amd64 (SetGauge CirconusMetrics.init "load" (.int8 100))
      "load" (.int8 100) (.int8 (-3)) 8 rfl rfl (Or.inr ⟨.int8 100, by decide, rfl⟩)⟩

/-! ## Repeated addition -/

theorem AddGauge_int64_present (p : Platform) (m : CirconusMetrics) (key : String)
    (c d : Int) (h : m.gauges.lookup key = some (.int64 c)) :
    AddGauge p m key (.int64 d) = .returned (SetGauge m key (.int64 (wrapSigned 64 (c + d)))) := by
  simp [AddGauge, h, SetGauge]

theorem iterate_AddGauge_int64_present (p : Platform) (key : String) (n : Nat) :
    ∀ (m : CirconusMetrics) (c : Int), m.gauges.lookup key = some (.int64 c) →
      Outcome.iterate (fun s => AddGauge p s key (.int64 1)) (n + 1) m
        = .returned (SetGauge m key (.int64 (wrapSigned 64 (c + ((n + 1 : Nat) : Int))))) := by
  induction n with
  | zero =>
    intro m c h
    simp [Outcome.iterate, AddGauge_int64_present p m key c 1 h, Outcome.andThen]
  | succ n ih =>
    intro m c h
    rw [Outcome.iterate, AddGauge_int64_present p m key c 1 h]
    simp only [Outcome.andThen]
    have e : c + 1 + ((n + 1 : Nat) : Int) = c + ((n + 1 + 1 : Nat) : Int) := by
      push_cast
      omega
    rw [ih _ _ (SetGauge_lookup m key _), SetGauge_SetGauge, wrapSigned_add_left, e]

theorem wrapSigned_of_inRange (w : Nat) (hw : 0 < w) (x : Int)
    (hlo : -2 ^ (w - 1) ≤ x) (hhi : x < 2 ^ (w - 1)) : wrapSigned w x = x := by
  unfold wrapSigned
  have h2 := two_pow_pred_double w hw
  rw [Int.emod_eq_of_lt (by omega) (by omega)]
  omega

/-- C20: on a store without the key, `n ≥ 1` successive calls `AddGauge(key, int64 1)`
all return, and the key then holds the `int64` that is congruent to `n` modulo `2 ^ 64`
(within the `int64` range), which is `n` itself whenever `n < 2 ^ 63`; nothing else in
the state changed. -/
theorem AddGauge_int64_one_accumulates (p : Platform) (m : CirconusMetrics)
    (key : String) (n : Nat) (hn : 1 ≤ n) (habs : m.gauges.lookup key = none) :
    ∃ r : Int,
      Outcome.iterate (fun s => AddGauge p s key (.int64 1)) n m
        = .returned (SetGauge m key (.int64 r)) ∧
      -2 ^ 63 ≤ r ∧ r < 2 ^ 63 ∧ r % 2 ^ 64 = (n : Int) % 2 ^ 64 ∧
      (n < 2 ^ 63 → r = (n : Int)) := by
  obtain ⟨k, rfl⟩ : ∃ k, n = k + 1 := ⟨n - 1, by omega⟩
  refine ⟨wrapSigned 64 ((k + 1 : Nat) : Int), ?_, wrapSigned_lower 64 _,
    wrapSigned_upper 64 (by decide) _, wrapSigned_emod 64 _, ?_⟩
  · rw [Outcome.iterate, AddGauge_absent p m key _ habs]
    simp only [Outcome.andThen]
    cases k with
    | zero =>
      simp only [Outcome.iterate]
      rw [wrapSigned_of_inRange 64 (by decide) _ (by norm_num) (by norm_num)]
      rfl
    | succ j =>
      have e : (1 : Int) + ((j + 1 : Nat) : Int) = ((j + 1 + 1 : Nat) : Int) := by
        push_cast
        omega
      rw [iterate_AddGauge_int64_present p key j _ 1 (SetGauge_lookup m key _),
        SetGauge_SetGauge, e]
  · intro hlt
    apply wrapSigned_of_inRange 64 (by decide)
    · have : (0 : Int) ≤ ((k + 1 : Nat) : Int) := Int.natCast_nonneg _
      omega
    · have : (((k + 1 : Nat) : Int)) < 2 ^ 63 := by exact_mod_cast hlt
      simpa using this

/-- C20, on `amd64` from the empty store, with three calls. -/
theorem AddGauge_int64_one_accumulates_witness :
    1 ≤ 3 ∧ CirconusMetrics.init.gauges.lookup "hits" = none ∧
    ∃ r : Int,
      Outcome.iterate (fun s => AddGauge amd64 s "hits" (.int64 1)) 3 CirconusMetrics.init
        = .returned (SetGauge CirconusMetrics.init "hits" (.int64 r)) ∧
      -2 ^ 63 ≤ r ∧ r < 2 ^ 63 ∧ r % 2 ^ 64 = ((3 : Nat) : Int) % 2 ^ 64 ∧
      (3 < 2 ^ 63 → r = ((3 : Nat) : Int)) :=
  ⟨by decide, rfl,
    AddGauge_int64_one_accumulates amd64 CirconusMetrics.init "hits" 3 (by decide) rfl⟩

end Circonus
